import Mathlib

/-!
Verification of the alert evaluation engine of the stock_alerts project.

Shallow embedding conventions:
* Prices (`DecimalField(max_digits=10, decimal_places=2)`) are exact
  2-decimal values, represented as integer cents (`Int`).
* Timestamps are integers measured in seconds (`Int`): the source computes
  `(now - condition_met_since).total_seconds() / 60` and compares it with
  `duration_minutes`; over exact arithmetic this equals
  `now - since ≥ 60 * duration_minutes` with `now`, `since` in seconds,
  which is the form used here.
* Strings (`alert_type`, `condition`) are kept as strings, as in the
  Django `CharField` columns; dispatch is by string equality, as in the
  source.
* Fallible steps (price fetch, DB save, notification dispatch) are
  parameterised by an explicit environment; a Python exception that a
  caller catches is modelled as an `Except.error` value.
-/

namespace StockAlerts

/-- Python-level exceptions that can arise while evaluating one alert. -/
inductive PyError where
  | typeError : PyError
  | persistenceConflict : PyError
deriving Repr, DecidableEq

deriving instance DecidableEq for Except

/-- `apps.alerts.models.Alert`: alert definition plus mutable evaluation
state.  `user` and `stock` foreign keys are represented by ids; the price
is in cents, `condition_met_since` in seconds. -/
structure Alert where
  id : Nat
  user_id : Nat
  stock_id : Nat
  alert_type : String
  condition : String
  threshold_price : Int
  duration_minutes : Option Int
  is_active : Bool
  condition_met_since : Option Int
deriving Repr, DecidableEq

/-- `apps.alerts.models.TriggeredAlert`: append-only record of a trigger.
`notification_sent` holds the final value after the dispatch attempt
(created as `False`, then updated once in `trigger_alert`). -/
structure TriggeredAlert where
  alert_id : Nat
  stock_price : Int
  triggered_at : Int
  notification_sent : Bool
deriving Repr, DecidableEq

/-- `apps.alerts.models.Alert.check_condition` (models.py:52-65). -/
def check_condition (a : Alert) (current_price : Int) : Bool :=
  if a.condition = ">" then decide (current_price > a.threshold_price)
  else if a.condition = "<" then decide (current_price < a.threshold_price)
  else if a.condition = ">=" then decide (current_price ≥ a.threshold_price)
  else if a.condition = "<=" then decide (current_price ≤ a.threshold_price)
  else false

/-- `apps.alerts.signals.alert_pre_save` (signals.py:9-15): reset
`condition_met_since` whenever an inactive alert is saved. -/
def alert_pre_save (a : Alert) : Alert :=
  if !a.is_active && a.condition_met_since.isSome then
    { a with condition_met_since := none }
  else a

/-- A Django `Alert.save()`: the `pre_save` receiver runs on the instance
before the row is written. -/
def saveAlert (a : Alert) : Alert :=
  alert_pre_save a

/-- `apps.alerts.models.Alert.should_trigger` (models.py:67-95), with the
saves made explicit.  `saveOk = false` means `self.save()` raises a
persistence error, leaving the stored row unchanged.  In the pending
branch the source compares
`(now - condition_met_since).total_seconds() / 60 >= duration_minutes`,
rendered exactly as `now - since ≥ 60 * d` over second-valued timestamps;
when `duration_minutes` is NULL that comparison raises `TypeError`,
modelled as `.error .typeError`. -/
def should_trigger (saveOk : Bool) (a : Alert) (current_price : Int) (now : Int) :
    Except PyError (Bool × Alert) :=
  let condition_met := check_condition a current_price
  if a.alert_type = "THRESHOLD" then
    .ok (condition_met, a)
  else if a.alert_type = "DURATION" then
    if condition_met then
      match a.condition_met_since with
      | none =>
        if saveOk then
          .ok (false, saveAlert { a with condition_met_since := some now })
        else
          .error .persistenceConflict
      | some since =>
        match a.duration_minutes with
        | none => .error .typeError
        | some d => .ok (decide (now - since ≥ 60 * d), a)
    else
      match a.condition_met_since with
      | some _ =>
        if saveOk then
          .ok (false, saveAlert { a with condition_met_since := none })
        else
          .error .persistenceConflict
      | none => .ok (false, a)
  else
    .ok (false, a)

/-- `apps.alerts.signals.triggered_alert_post_save` (signals.py:17-31):
runs when a `TriggeredAlert` row is created.  The handler saves the parent
alert, so the `pre_save` receiver runs on it as well. -/
def triggered_alert_post_save (a : Alert) : Alert :=
  if a.alert_type = "THRESHOLD" && a.is_active then
    saveAlert { a with is_active := false }
  else if a.alert_type = "DURATION" && a.condition_met_since.isSome then
    saveAlert { a with condition_met_since := none }
  else a

/-- `apps.alerts.services.AlertProcessor.trigger_alert` (services.py:66-103).
Creating the `TriggeredAlert` row fires `triggered_alert_post_save`;
`NotificationService.send_alert_notification` catches every exception
internally and returns a boolean, so only the record-creation step can
raise here (`saveOk = false`), in which case the `except` at
services.py:101-103 returns `False` with no state persisted. -/
def trigger_alert (saveOk notifOk : Bool) (a : Alert) (current_price : Int)
    (now : Int) : Bool × Alert × Option TriggeredAlert :=
  if saveOk then
    let a1 := triggered_alert_post_save a
    let rec1 : TriggeredAlert :=
      { alert_id := a.id, stock_price := current_price, triggered_at := now,
        notification_sent := notifOk }
    let a2 :=
      if a1.alert_type = "THRESHOLD" then
        saveAlert { a1 with is_active := false }
      else if a1.alert_type = "DURATION" then
        saveAlert { a1 with condition_met_since := none }
      else a1
    (true, a2, some rec1)
  else
    (false, a, none)

/-- Per-cycle environment: current prices by stock id (`none` = the
price fetch raises / stock missing), and per-alert save and notification
outcomes. -/
structure CycleEnv where
  priceOf : Nat → Option Int
  saveOk : Nat → Bool
  notifOk : Nat → Bool

/-- `apps.alerts.services.AlertProcessor.process_alert` (services.py:48-64).
The whole body is wrapped in `try/except Exception: return False`, so a
price-fetch failure or a raise inside `should_trigger` yields `False`
with the alert's stored state untouched; this function never raises. -/
def process_alert (env : CycleEnv) (now : Int) (a : Alert) :
    Bool × Alert × Option TriggeredAlert :=
  match env.priceOf a.stock_id with
  | none => (false, a, none)
  | some current_price =>
    match should_trigger (env.saveOk a.id) a current_price now with
    | .error _ => (false, a, none)
    | .ok (true, a1) => trigger_alert (env.saveOk a.id) (env.notifOk a.id) a1 current_price now
    | .ok (false, a1) => (false, a1, none)

/-- One alert's fate during `process_all_alerts`: the loop runs
`process_alert` on the alerts of the `is_active=True` queryset and leaves
every other row untouched. -/
def runCycleAlert (env : CycleEnv) (now : Int) (a : Alert) :
    Bool × Alert × Option TriggeredAlert :=
  if a.is_active then process_alert env now a else (false, a, none)

/-- The `{processed, triggered, errors}` aggregate of a cycle. -/
structure ProcResults where
  processed : Nat
  triggered : Nat
  errors : Nat
deriving Repr, DecidableEq

/-- `apps.alerts.services.AlertProcessor.process_all_alerts`
(services.py:20-46).  Returns the aggregate, the stored alerts after the
cycle, the created `TriggeredAlert` records, and the evaluation trace:
the ids of the alerts on which `process_alert` was invoked (each active
alert exactly once, in order).  `errors` is `0` by construction: the
`except` branch at services.py:41-43 would only run if `process_alert`
raised, and `process_alert` (services.py:48-64) catches every exception
and returns `False` instead. -/
def process_all_alerts (env : CycleEnv) (now : Int) (alerts : List Alert) :
    ProcResults × List Alert × List TriggeredAlert × List Nat :=
  let active := alerts.filter (fun a => a.is_active)
  let steps := alerts.map (fun a => runCycleAlert env now a)
  ({ processed := active.length,
     triggered := (steps.filter (fun s => s.1)).length,
     errors := 0 },
   steps.map (fun s => s.2.1),
   steps.filterMap (fun s => s.2.2),
   active.map (fun a => a.id))

/-- The payload of `AlertCreateSerializer` after field-level validation:
the posted fields plus the requesting user and the chosen stock's current
state (prices in cents). -/
structure AlertCreateData where
  user_id : Nat
  stock_id : Nat
  stock_current_price : Int
  alert_type : String
  condition : String
  threshold_price : Int
  duration_minutes : Option Int
deriving Repr, DecidableEq

/-- The price-sanity guard `abs(threshold - current) / current > 10` of
serializers.py:188-189, with the division compiled out exactly: for
`current ≠ 0` the quotient `|t - c| / c` exceeds `10` precisely when
`c > 0` and `|t - c| > 10 * c` (for `c < 0` the quotient is
nonpositive, never above 10).  `price_diff_ratio_exceeds_iff` below
proves this rendering equal to the rational-division original. -/
def price_diff_ratio_exceeds (t c : Int) : Bool :=
  decide (0 < c) && decide (((t - c).natAbs : Int) > 10 * c)

/-- `apps.alerts.serializers.AlertCreateSerializer.validate`
(serializers.py:160-220), create case (`self.instance` absent, the
requesting user taken from the context).  The price-sanity branch guards
on the truthiness of `stock`, `threshold_price` and
`stock.current_price`, i.e. on the prices being nonzero. -/
def serializer_validate (existing : List Alert) (d : AlertCreateData) :
    Except String AlertCreateData :=
  if d.alert_type = "DURATION" &&
      (match d.duration_minutes with | none => true | some m => decide (m ≤ 0)) then
    .error "Duration alerts must have a positive duration_minutes value."
  else if d.alert_type = "THRESHOLD" && d.duration_minutes.isSome then
    .error "Threshold alerts should not have duration_minutes."
  else if d.threshold_price ≠ 0 && d.stock_current_price ≠ 0 &&
      price_diff_ratio_exceeds d.threshold_price d.stock_current_price then
    .error "Threshold price seems very different from current price."
  else if existing.any (fun e =>
      e.user_id = d.user_id && e.stock_id = d.stock_id &&
      e.alert_type = d.alert_type && e.condition = d.condition &&
      e.threshold_price = d.threshold_price && e.is_active) then
    .error "You already have an identical active alert for this stock."
  else
    .ok d

/-- The §3 invariant on one alert, relative to the last price the engine
observed for its stock: `condition_met_since` is non-null only while the
alert is active, of Duration kind, and its comparator holds. -/
def conditionInv (a : Alert) (p : Int) : Prop :=
  a.condition_met_since.isSome →
    a.is_active = true ∧ a.alert_type = "DURATION" ∧ check_condition a p = true


/-- C5: the condition evaluator implements the four comparators exactly,
over exact 2-decimal (integer-cent) arithmetic, as a pure function. -/
theorem check_condition_correct (a : Alert) (p : Int) :
    (a.condition = ">" → (check_condition a p = true ↔ p > a.threshold_price)) ∧
    (a.condition = "<" → (check_condition a p = true ↔ p < a.threshold_price)) ∧
    (a.condition = ">=" → (check_condition a p = true ↔ p ≥ a.threshold_price)) ∧
    (a.condition = "<=" → (check_condition a p = true ↔ p ≤ a.threshold_price)) := by
  refine ⟨fun h => ?_, fun h => ?_, fun h => ?_, fun h => ?_⟩ <;>
    simp [check_condition, h]

theorem check_condition_correct_witness :
    (check_condition
        { id := 1, user_id := 1, stock_id := 1, alert_type := "THRESHOLD",
          condition := ">", threshold_price := 20000, duration_minutes := none,
          is_active := true, condition_met_since := none } 20001 = true ↔
      (20001 : Int) > 20000) :=
  (check_condition_correct _ 20001).1 rfl

/-- C9: evaluation is total on out-of-enum values: an unknown comparator
makes `check_condition` return `false` (models.py:65), and an unknown
`alert_type` makes `should_trigger` return `False` without raising and
without touching state (models.py:95). -/
theorem evaluation_total_out_of_enum (a : Alert) (p now : Int) (saveOk : Bool) :
    (a.condition ≠ ">" → a.condition ≠ "<" → a.condition ≠ ">=" →
      a.condition ≠ "<=" → check_condition a p = false) ∧
    (a.alert_type ≠ "THRESHOLD" → a.alert_type ≠ "DURATION" →
      should_trigger saveOk a p now = .ok (false, a)) := by
  constructor
  · intro h1 h2 h3 h4
    simp [check_condition, h1, h2, h3, h4]
  · intro h1 h2
    simp [should_trigger, h1, h2]

theorem evaluation_total_out_of_enum_witness :
    check_condition
      { id := 1, user_id := 1, stock_id := 1, alert_type := "WEEKLY",
        condition := "between", threshold_price := 100,
        duration_minutes := none, is_active := true,
        condition_met_since := none } 50 = false ∧
    should_trigger true
      { id := 1, user_id := 1, stock_id := 1, alert_type := "WEEKLY",
        condition := "between", threshold_price := 100,
        duration_minutes := none, is_active := true,
        condition_met_since := none } 50 0 =
      .ok (false,
        { id := 1, user_id := 1, stock_id := 1, alert_type := "WEEKLY",
          condition := "between", threshold_price := 100,
          duration_minutes := none, is_active := true,
          condition_met_since := none }) :=
  ⟨(evaluation_total_out_of_enum _ 50 0 true).1 (by decide) (by decide)
      (by decide) (by decide),
   (evaluation_total_out_of_enum _ 50 0 true).2 (by decide) (by decide)⟩

/-- C6: triggering and notifying are decoupled: with a failed
notification dispatch, `trigger_alert` still creates the record (with
`notification_sent = false`), still commits the post-trigger transition
(deactivation for Threshold, `condition_met_since` reset for Duration),
and leaves the alert in exactly the state a successful dispatch would. -/
theorem trigger_notification_decoupled (a : Alert) (p now : Int) :
    (trigger_alert true false a p now).1 = true ∧
    (trigger_alert true false a p now).2.2 =
      some { alert_id := a.id, stock_price := p, triggered_at := now,
             notification_sent := false } ∧
    (a.alert_type = "THRESHOLD" →
      ((trigger_alert true false a p now).2.1).is_active = false) ∧
    (a.alert_type = "DURATION" →
      ((trigger_alert true false a p now).2.1).condition_met_since = none) ∧
    (trigger_alert true false a p now).2.1 = (trigger_alert true true a p now).2.1 ∧
    (trigger_alert true true a p now).1 = true := by
  obtain ⟨i, u, s, ty, c, tp, dm, act, cms⟩ := a
  refine ⟨rfl, rfl, fun h => ?_, fun h => ?_, rfl, rfl⟩ <;>
    subst h <;> cases act <;> cases cms <;>
      simp [trigger_alert, triggered_alert_post_save, saveAlert, alert_pre_save]

theorem trigger_notification_decoupled_witness :
    ((trigger_alert true false
        { id := 3, user_id := 1, stock_id := 1, alert_type := "THRESHOLD",
          condition := ">", threshold_price := 20000, duration_minutes := none,
          is_active := true, condition_met_since := none } 20001 5).2.1).is_active =
      false :=
  (trigger_notification_decoupled _ 20001 5).2.2.1 rfl



/-- C1: the Duration-alert state machine of one evaluation step, under a
successful price fetch and working persistence: a holding condition with
no streak starts the streak at `now` without triggering; a holding
condition with a streak started at `s` triggers exactly when
`now - s ≥ 60 * d` seconds (equality sufficient), clearing
`condition_met_since` and keeping the alert active; a failing condition
clears the streak without triggering. -/
theorem duration_state_machine (env : CycleEnv) (now : Int) (a : Alert)
    (d p : Int)
    (hact : a.is_active = true)
    (htype : a.alert_type = "DURATION")
    (hdur : a.duration_minutes = some d)
    (hprice : env.priceOf a.stock_id = some p)
    (hsave : env.saveOk a.id = true) :
    (check_condition a p = true → a.condition_met_since = none →
      runCycleAlert env now a =
        (false, { a with condition_met_since := some now }, none)) ∧
    (∀ s, check_condition a p = true → a.condition_met_since = some s →
      ((runCycleAlert env now a).1 = decide (now - s ≥ 60 * d)) ∧
      (now - s ≥ 60 * d →
        ((runCycleAlert env now a).2.1).condition_met_since = none ∧
        ((runCycleAlert env now a).2.1).is_active = true ∧
        (runCycleAlert env now a).2.2 =
          some { alert_id := a.id, stock_price := p, triggered_at := now,
                 notification_sent := env.notifOk a.id }) ∧
      (¬(now - s ≥ 60 * d) → runCycleAlert env now a = (false, a, none))) ∧
    (check_condition a p = false →
      runCycleAlert env now a =
        (false, { a with condition_met_since := none }, none)) := by
  obtain ⟨i, u, st, ty, c, tp, dm, act, cms⟩ := a
  subst htype hdur hact
  refine ⟨fun hc hs => ?_, fun s hc hs => ⟨?_, fun hd => ?_, fun hd => ?_⟩,
    fun hc => ?_⟩ <;> subst_vars
  · simp [runCycleAlert, process_alert, should_trigger, saveAlert,
      alert_pre_save, hprice, hsave, hc]
  · simp [runCycleAlert, process_alert, should_trigger, trigger_alert,
      triggered_alert_post_save, saveAlert, alert_pre_save,
      hprice, hsave, hc]
    split <;> simp_all
  · simp [runCycleAlert, process_alert, should_trigger, trigger_alert,
      triggered_alert_post_save, saveAlert, alert_pre_save,
      hprice, hsave, hc, decide_eq_true hd]
  · simp [runCycleAlert, process_alert, should_trigger, trigger_alert,
      triggered_alert_post_save, saveAlert, alert_pre_save,
      hprice, hsave, hc, decide_eq_false hd]
  · cases cms <;>
      simp [runCycleAlert, process_alert, should_trigger, saveAlert,
        alert_pre_save, hprice, hsave, hc]


theorem duration_state_machine_witness :
    runCycleAlert
      { priceOf := fun _ => some 14900, saveOk := fun _ => true,
        notifOk := fun _ => true } 0
      { id := 2, user_id := 1, stock_id := 2, alert_type := "DURATION",
        condition := "<", threshold_price := 15000, duration_minutes := some 30,
        is_active := true, condition_met_since := none } =
      (false,
       { id := 2, user_id := 1, stock_id := 2, alert_type := "DURATION",
         condition := "<", threshold_price := 15000, duration_minutes := some 30,
         is_active := true, condition_met_since := some 0 },
       none) :=
  (duration_state_machine _ 0 _ 30 14900 rfl rfl rfl rfl rfl).1 (by decide) rfl

/-- C2: Threshold alerts are single-shot: on a cycle where an active
Threshold alert's condition holds (price fetched, persistence working),
the engine triggers it exactly once — one record is created — and
deactivates it; afterwards the alert is inactive and every later cycle,
whatever its environment, skips it entirely: no evaluation, no trigger,
no state change. -/
theorem threshold_single_shot (env : CycleEnv) (now : Int) (a : Alert) (p : Int)
    (hact : a.is_active = true) (htype : a.alert_type = "THRESHOLD")
    (hprice : env.priceOf a.stock_id = some p) (hsave : env.saveOk a.id = true)
    (hcond : check_condition a p = true) :
    (runCycleAlert env now a).1 = true ∧
    (runCycleAlert env now a).2.2 =
      some { alert_id := a.id, stock_price := p, triggered_at := now,
             notification_sent := env.notifOk a.id } ∧
    ((runCycleAlert env now a).2.1).is_active = false ∧
    (∀ env2 now2, runCycleAlert env2 now2 (runCycleAlert env now a).2.1 =
      (false, (runCycleAlert env now a).2.1, none)) := by
  obtain ⟨i, u, st, ty, c, tp, dm, act, cms⟩ := a
  subst htype hact
  cases cms <;>
    simp [runCycleAlert, process_alert, should_trigger, trigger_alert,
      triggered_alert_post_save, saveAlert, alert_pre_save, hprice, hsave, hcond]

theorem threshold_single_shot_witness :
    (runCycleAlert
      { priceOf := fun _ => some 20001, saveOk := fun _ => true,
        notifOk := fun _ => true } 7
      { id := 1, user_id := 1, stock_id := 1, alert_type := "THRESHOLD",
        condition := ">", threshold_price := 20000, duration_minutes := none,
        is_active := true, condition_met_since := none }).1 = true ∧
    ((runCycleAlert
      { priceOf := fun _ => some 20001, saveOk := fun _ => true,
        notifOk := fun _ => true } 7
      { id := 1, user_id := 1, stock_id := 1, alert_type := "THRESHOLD",
        condition := ">", threshold_price := 20000, duration_minutes := none,
        is_active := true, condition_met_since := none }).2.1).is_active = false :=
  ⟨(threshold_single_shot _ 7 _ 20001 rfl rfl rfl rfl (by decide)).1,
   (threshold_single_shot _ 7 _ 20001 rfl rfl rfl rfl (by decide)).2.2.1⟩



/-- C3: the state invariant: a cycle step under a fetched price `p` and
working persistence carries the §3 invariant from the previously observed
price `q` to `p` — `condition_met_since` stays non-null only on an
active Duration alert whose comparator holds for the price the engine
just observed; and every save of an inactive alert synchronously clears
`condition_met_since` (the `pre_save` signal). -/
theorem condition_met_since_invariant :
    (∀ (env : CycleEnv) (now : Int) (a : Alert) (q p : Int),
      env.priceOf a.stock_id = some p → env.saveOk a.id = true →
      conditionInv a q → conditionInv (runCycleAlert env now a).2.1 p) ∧
    (∀ b : Alert, b.is_active = false →
      (saveAlert b).condition_met_since = none) := by
  constructor
  · intro env now a q p hprice hsave hinv
    obtain ⟨i, u, st, ty, c, tp, dm, act, cms⟩ := a
    cases act
    · simp only [runCycleAlert, Bool.false_eq_true, if_false]
      intro h
      exact absurd (hinv h).1 Bool.false_ne_true
    · by_cases hT : ty = "THRESHOLD"
      · subst hT
        cases hc : check_condition ⟨i, u, st, "THRESHOLD", c, tp, dm, true, cms⟩ p
        · simp only [runCycleAlert, process_alert, should_trigger, hprice,
            hsave, hc, if_true, if_false, reduceIte]
          intro h
          exact absurd (hinv h).2.1 (by simp)
        · cases cms <;>
            simp [conditionInv, runCycleAlert, process_alert, should_trigger,
              trigger_alert, triggered_alert_post_save, saveAlert,
              alert_pre_save, hprice, hsave, hc]
      · by_cases hD : ty = "DURATION"
        · subst hD
          cases cms with
          | none =>
            cases hc : check_condition ⟨i, u, st, "DURATION", c, tp, dm, true, none⟩ p
            · simp [conditionInv, runCycleAlert, process_alert, should_trigger,
                hprice, hsave, hc]
            · simp only [runCycleAlert, process_alert, should_trigger,
                trigger_alert, triggered_alert_post_save, saveAlert,
                alert_pre_save, hprice, hsave, hc, if_true, reduceIte]
              intro h
              exact ⟨rfl, rfl, hc⟩
          | some s =>
            cases hc : check_condition ⟨i, u, st, "DURATION", c, tp, dm, true, some s⟩ p
            · simp [conditionInv, runCycleAlert, process_alert, should_trigger,
                saveAlert, alert_pre_save, hprice, hsave, hc]
            · cases dm with
              | none =>
                simp only [runCycleAlert, process_alert, should_trigger,
                  hprice, hsave, hc, if_true, reduceIte]
                intro h
                exact ⟨rfl, rfl, hc⟩
              | some d =>
                by_cases hel : now - s ≥ 60 * d
                · simp [conditionInv, runCycleAlert, process_alert,
                    should_trigger, trigger_alert, triggered_alert_post_save,
                    saveAlert, alert_pre_save, hprice, hsave, hc,
                    decide_eq_true hel]
                · simp only [runCycleAlert, process_alert, should_trigger,
                    hprice, hsave, hc, decide_eq_false hel, if_true, reduceIte]
                  intro h
                  exact ⟨rfl, rfl, hc⟩
        · simp only [runCycleAlert, process_alert, should_trigger, hprice,
            hsave, hT, hD, if_true, if_false, reduceIte]
          intro h
          exact absurd (hinv h).2.1 hD
  · intro b hb
    obtain ⟨i, u, st, ty, c, tp, dm, act, cms⟩ := b
    subst hb
    cases cms <;> simp [saveAlert, alert_pre_save]


theorem condition_met_since_invariant_witness :
    conditionInv
      (runCycleAlert
        { priceOf := fun _ => some 14900, saveOk := fun _ => true,
          notifOk := fun _ => true } 0
        { id := 2, user_id := 1, stock_id := 2, alert_type := "DURATION",
          condition := "<", threshold_price := 15000,
          duration_minutes := some 30, is_active := true,
          condition_met_since := none }).2.1 14900 ∧
    (saveAlert
      { id := 9, user_id := 1, stock_id := 2, alert_type := "DURATION",
        condition := "<", threshold_price := 15000,
        duration_minutes := some 30, is_active := false,
        condition_met_since := some 5 }).condition_met_since = none :=
  ⟨condition_met_since_invariant.1 _ 0 _ 14900 14900 rfl rfl
      (by simp [conditionInv]),
   condition_met_since_invariant.2 _ rfl⟩



/-- Re-running an alert's evaluation step in the same environment at the
same instant produces no trigger and no record, provided any configured
`duration_minutes` is positive. -/
lemma runCycleAlert_second_noop (env : CycleEnv) (now : Int) (a : Alert)
    (hdur : ∀ d, a.duration_minutes = some d → 0 < d) :
    (runCycleAlert env now (runCycleAlert env now a).2.1).1 = false ∧
    (runCycleAlert env now (runCycleAlert env now a).2.1).2.2 = none := by
  obtain ⟨i, u, st, ty, c, tp, dm, act, cms⟩ := a
  cases act
  · simp [runCycleAlert]
  cases hp : env.priceOf st with
  | none =>
    simp [runCycleAlert, process_alert, hp]
  | some p =>
    by_cases hT : ty = "THRESHOLD"
    · subst hT
      cases hc : check_condition ⟨i, u, st, "THRESHOLD", c, tp, dm, true, cms⟩ p
      · simp [runCycleAlert, process_alert, should_trigger, hp, hc]
      · cases hsv : env.saveOk i
        · have hc2 : ∀ cms2, check_condition
              ⟨i, u, st, "THRESHOLD", c, tp, dm, true, cms2⟩ p = true :=
            fun _ => hc
          simp [runCycleAlert, process_alert, should_trigger, trigger_alert,
            hp, hc, hc2, hsv]
        · cases cms <;>
            simp [runCycleAlert, process_alert, should_trigger, trigger_alert,
              triggered_alert_post_save, saveAlert, alert_pre_save, hp, hc, hsv]
    · by_cases hD : ty = "DURATION"
      · subst hD
        have hcgen : ∀ cms1 cms2,
            check_condition ⟨i, u, st, "DURATION", c, tp, dm, true, cms1⟩ p =
            check_condition ⟨i, u, st, "DURATION", c, tp, dm, true, cms2⟩ p :=
          fun _ _ => rfl
        cases hc : check_condition ⟨i, u, st, "DURATION", c, tp, dm, true, cms⟩ p
        · -- condition fails: streak cleared (or clear fails); no trigger twice
          have hc2 : ∀ cms2, check_condition
              ⟨i, u, st, "DURATION", c, tp, dm, true, cms2⟩ p = false :=
            fun _ => hc
          cases cms with
          | none =>
            simp [runCycleAlert, process_alert, should_trigger, hp, hc]
          | some s =>
            cases hsv : env.saveOk i <;>
              simp [runCycleAlert, process_alert, should_trigger, saveAlert,
                alert_pre_save, hp, hc, hc2, hsv]
        · have hc2 : ∀ cms2, check_condition
              ⟨i, u, st, "DURATION", c, tp, dm, true, cms2⟩ p = true :=
            fun _ => hc
          cases cms with
          | none =>
            cases hsv : env.saveOk i
            · simp [runCycleAlert, process_alert, should_trigger, hp, hc, hsv]
            · cases dm with
              | none =>
                simp [runCycleAlert, process_alert, should_trigger, saveAlert,
                  alert_pre_save, hp, hc, hc2, hsv]
              | some d =>
                have hd : 0 < d := hdur d rfl
                have hnot : ¬(now - now ≥ 60 * d) := by omega
                have hnot2 : ¬(60 * d ≤ 0) := by omega
                simp [runCycleAlert, process_alert, should_trigger, saveAlert,
                  alert_pre_save, hp, hc, hc2, hsv, decide_eq_false hnot,
                  decide_eq_false hnot2]
          | some s =>
            cases dm with
            | none =>
              simp [runCycleAlert, process_alert, should_trigger, hp, hc]
            | some d =>
              by_cases hel : now - s ≥ 60 * d
              · cases hsv : env.saveOk i
                · simp [runCycleAlert, process_alert, should_trigger,
                    trigger_alert, hp, hc, hc2, hsv, decide_eq_true hel]
                · have hd : 0 < d := hdur d rfl
                  have hnot : ¬(now - now ≥ 60 * d) := by omega
                  have hnot2 : ¬(60 * d ≤ 0) := by omega
                  simp [runCycleAlert, process_alert, should_trigger,
                    trigger_alert, triggered_alert_post_save, saveAlert,
                    alert_pre_save, hp, hc, hc2, hsv, decide_eq_true hel,
                    decide_eq_false hnot, decide_eq_false hnot2]
              · simp [runCycleAlert, process_alert, should_trigger, hp, hc,
                  decide_eq_false hel]
      · simp [runCycleAlert, process_alert, should_trigger, hp, hT, hD]

/-- C7: cycle idempotence: running one evaluation cycle and immediately
running a second one in the same environment (prices unchanged, same
instant) produces zero triggers and creates no records in the second
cycle, for any batch whose configured durations are positive. -/
theorem cycle_idempotent (env : CycleEnv) (now : Int) (alerts : List Alert)
    (hdur : ∀ a ∈ alerts, ∀ d, a.duration_minutes = some d → 0 < d) :
    (process_all_alerts env now
      (process_all_alerts env now alerts).2.1).1.triggered = 0 ∧
    (process_all_alerts env now
      (process_all_alerts env now alerts).2.1).2.2.1 = [] := by
  constructor
  · simp only [process_all_alerts, List.map_map]
    rw [List.length_eq_zero]
    refine List.filter_eq_nil_iff.mpr ?_
    intro s hs
    obtain ⟨a, ha, rfl⟩ := List.mem_map.mp hs
    simp [Function.comp,
      (runCycleAlert_second_noop env now a (hdur a ha)).1]
  · simp only [process_all_alerts, List.map_map]
    refine List.filterMap_eq_nil_iff.mpr ?_
    intro s hs
    obtain ⟨a, ha, rfl⟩ := List.mem_map.mp hs
    simpa [Function.comp] using
      (runCycleAlert_second_noop env now a (hdur a ha)).2

theorem cycle_idempotent_witness :
    (process_all_alerts
      { priceOf := fun _ => some 20001, saveOk := fun _ => true,
        notifOk := fun _ => true } 0
      (process_all_alerts
        { priceOf := fun _ => some 20001, saveOk := fun _ => true,
          notifOk := fun _ => true } 0
        [{ id := 1, user_id := 1, stock_id := 1, alert_type := "THRESHOLD",
           condition := ">", threshold_price := 20000, duration_minutes := none,
           is_active := true, condition_met_since := none }]).2.1).1.triggered = 0 :=
  (cycle_idempotent _ 0 _ (by simp)).1



/-- C4 (code-bug evidence): batch of two active Threshold alerts where the
first one's price fetch raises and the second one's condition holds.  The
failing alert is skipped with state untouched and the second alert is
still evaluated and triggers — but the cycle reports `errors = 0`, not
`errors = 1`: `process_alert` (services.py:48-64) catches the exception
and returns `False`, so the error counter at services.py:41-43 can never
be incremented. -/
theorem price_failure_not_counted :
    process_all_alerts
      { priceOf := fun s => if s = 1 then none else some 20001,
        saveOk := fun _ => true, notifOk := fun _ => true } 0
      [{ id := 1, user_id := 1, stock_id := 1, alert_type := "THRESHOLD",
         condition := ">", threshold_price := 20000, duration_minutes := none,
         is_active := true, condition_met_since := none },
       { id := 2, user_id := 1, stock_id := 2, alert_type := "THRESHOLD",
         condition := ">", threshold_price := 20000, duration_minutes := none,
         is_active := true, condition_met_since := none }] =
    ({ processed := 2, triggered := 1, errors := 0 },
     [{ id := 1, user_id := 1, stock_id := 1, alert_type := "THRESHOLD",
        condition := ">", threshold_price := 20000, duration_minutes := none,
        is_active := true, condition_met_since := none },
      { id := 2, user_id := 1, stock_id := 2, alert_type := "THRESHOLD",
        condition := ">", threshold_price := 20000, duration_minutes := none,
        is_active := false, condition_met_since := none }],
     [{ alert_id := 2, stock_price := 20001, triggered_at := 0,
        notification_sent := true }],
     [1, 2]) := by decide

/-- C8 (counterexample): an active Duration alert whose save raises a
persistence error is evaluated exactly once in the cycle — its id appears
once in the evaluation trace, not twice — its stored state is unchanged,
and the cycle reports `errors = 0`; the engine performs no retry and
counts no error, contrary to the retry-once-then-count policy. -/
theorem persistence_conflict_no_retry_cex :
    process_all_alerts
      { priceOf := fun _ => some 14900, saveOk := fun i => !(i = 7),
        notifOk := fun _ => true } 0
      [{ id := 7, user_id := 1, stock_id := 3, alert_type := "DURATION",
         condition := "<", threshold_price := 15000,
         duration_minutes := some 30, is_active := true,
         condition_met_since := none }] =
    ({ processed := 1, triggered := 0, errors := 0 },
     [{ id := 7, user_id := 1, stock_id := 3, alert_type := "DURATION",
        condition := "<", threshold_price := 15000,
        duration_minutes := some 30, is_active := true,
        condition_met_since := none }],
     [],
     [7]) ∧
    (process_all_alerts
      { priceOf := fun _ => some 14900, saveOk := fun i => !(i = 7),
        notifOk := fun _ => true } 0
      [{ id := 7, user_id := 1, stock_id := 3, alert_type := "DURATION",
         condition := "<", threshold_price := 15000,
         duration_minutes := some 30, is_active := true,
         condition_met_since := none }]).2.2.2.count 7 = 1 := by decide

/-- C8 (amended): the engine performs no retry on persistence conflicts:
in every cycle each active alert is evaluated exactly once — the trace of
`process_alert` invocations is exactly the ids of the active alerts, in
order, whatever save failures occur — the errors count is always `0`, and
an alert whose streak-starting save raises is left for the cycle with
stored state unchanged and no trigger. -/
theorem persistence_conflict_single_attempt (env : CycleEnv) (now : Int)
    (alerts : List Alert) :
    (process_all_alerts env now alerts).2.2.2 =
      (alerts.filter (fun a => a.is_active)).map (fun a => a.id) ∧
    (process_all_alerts env now alerts).1.errors = 0 ∧
    (∀ a p, a.is_active = true → env.saveOk a.id = false →
      env.priceOf a.stock_id = some p → a.alert_type = "DURATION" →
      check_condition a p = true → a.condition_met_since = none →
      runCycleAlert env now a = (false, a, none)) := by
  refine ⟨rfl, rfl, fun a p hact hsv hp hty hc hcms => ?_⟩
  simp [runCycleAlert, process_alert, should_trigger, hact, hsv, hp, hty,
    hc, hcms]

theorem persistence_conflict_single_attempt_witness :
    runCycleAlert
      { priceOf := fun _ => some 14900, saveOk := fun i => !(i = 7),
        notifOk := fun _ => true } 0
      { id := 7, user_id := 1, stock_id := 3, alert_type := "DURATION",
        condition := "<", threshold_price := 15000,
        duration_minutes := some 30, is_active := true,
        condition_met_since := none } =
      (false,
       { id := 7, user_id := 1, stock_id := 3, alert_type := "DURATION",
         condition := "<", threshold_price := 15000,
         duration_minutes := some 30, is_active := true,
         condition_met_since := none },
       none) :=
  (persistence_conflict_single_attempt _ 0
    [{ id := 7, user_id := 1, stock_id := 3, alert_type := "DURATION",
       condition := "<", threshold_price := 15000,
       duration_minutes := some 30, is_active := true,
       condition_met_since := none }]).2.2 _ 14900 rfl rfl rfl rfl
    (by decide) rfl

/-- Faithfulness of `price_diff_ratio_exceeds` to the source's
`abs(threshold - current) / current > 10` over exact arithmetic. -/
lemma price_diff_ratio_exceeds_iff (t c : Int) (hc : c ≠ 0) :
    price_diff_ratio_exceeds t c = true ↔
      |(t : ℚ) - (c : ℚ)| / (c : ℚ) > 10 := by
  unfold price_diff_ratio_exceeds
  have habs : ((((t - c).natAbs : ℤ)) : ℚ) = |(t : ℚ) - (c : ℚ)| := by
    rw [← Int.abs_eq_natAbs]
    push_cast
    ring_nf
  rcases lt_trichotomy c 0 with h | h | h
  · have hnum : (0 : ℚ) ≤ |(t : ℚ) - (c : ℚ)| := abs_nonneg _
    have hden : ((c : ℚ)) < 0 := by exact_mod_cast h
    have hq : |(t : ℚ) - (c : ℚ)| / (c : ℚ) ≤ 0 :=
      div_nonpos_of_nonneg_of_nonpos hnum (le_of_lt hden)
    simp only [decide_eq_true_eq, Bool.and_eq_true]
    constructor
    · rintro ⟨h1, -⟩
      exact absurd h1 (not_lt.mpr (le_of_lt h))
    · intro h2
      exact absurd h2 (not_lt.mpr (le_trans hq (by norm_num)))
  · exact absurd h hc
  · have hden : (0 : ℚ) < (c : ℚ) := by exact_mod_cast h
    simp only [decide_eq_true_eq, Bool.and_eq_true]
    rw [show (((t - c).natAbs : ℤ)) = |t - c| from (Int.abs_eq_natAbs _).symm]
    constructor
    · rintro ⟨-, h2⟩
      have h3 : (10 : ℚ) * (c : ℚ) < |(t : ℚ) - (c : ℚ)| := by exact_mod_cast h2
      exact (lt_div_iff₀ hden).mpr h3
    · intro h2
      have h3 := (lt_div_iff₀ hden).mp h2
      refine ⟨h, ?_⟩
      exact_mod_cast h3

/-- C10: duplicate rejection at the create interface: whenever the
requesting user already has an active alert with the same stock, alert
type, condition and threshold price, `validate` raises a validation error
(the duplicate check of serializers.py:194-218, possibly preempted by an
earlier validation error), so creation through the endpoint never yields
two identical active alerts for one user. -/
theorem duplicate_create_rejected (existing : List Alert) (d : AlertCreateData)
    (e : Alert) (he : e ∈ existing) (hu : e.user_id = d.user_id)
    (hs : e.stock_id = d.stock_id) (ht : e.alert_type = d.alert_type)
    (hc : e.condition = d.condition)
    (hp : e.threshold_price = d.threshold_price) (ha : e.is_active = true) :
    ∃ msg, serializer_validate existing d = .error msg := by
  have hany : existing.any (fun e => e.user_id = d.user_id &&
      e.stock_id = d.stock_id && e.alert_type = d.alert_type &&
      e.condition = d.condition && e.threshold_price = d.threshold_price &&
      e.is_active) = true :=
    List.any_eq_true.mpr ⟨e, he, by simp [hu, hs, ht, hc, hp, ha]⟩
  unfold serializer_validate
  split
  · exact ⟨_, rfl⟩
  split
  · exact ⟨_, rfl⟩
  split
  · exact ⟨_, rfl⟩
  exact ⟨_, rfl⟩

theorem duplicate_create_rejected_witness :
    ∃ msg, serializer_validate
      [{ id := 1, user_id := 4, stock_id := 1, alert_type := "THRESHOLD",
         condition := ">", threshold_price := 20000, duration_minutes := none,
         is_active := true, condition_met_since := none }]
      { user_id := 4, stock_id := 1, stock_current_price := 19999,
        alert_type := "THRESHOLD", condition := ">",
        threshold_price := 20000, duration_minutes := none } = .error msg :=
  duplicate_create_rejected _ _
    { id := 1, user_id := 4, stock_id := 1, alert_type := "THRESHOLD",
      condition := ">", threshold_price := 20000, duration_minutes := none,
      is_active := true, condition_met_since := none }
    (by simp) rfl rfl rfl rfl rfl rfl


end StockAlerts
